import Mathlib

/-!
Verification of the financial computation engine of the Boekhouding-LLM-Solution
repository (a Dutch small-business bookkeeping application).

The engine consists of pure functions in `src/App.tsx` over domain records from
`src/types.ts` and constants from `src/constants.ts`:

* `calculateKiaDeduction` — piecewise KIA (investment deduction) bracket function;
* `calculateBookValue`   — straight-line depreciation floored at residual value;
* `VatReturnView.calculate` — quarterly VAT return aggregation;
* `loadSummary`          — financial summary roll-up (revenue, profit, VAT, KIA);
* `CompanyInfoView`      — company valuation with a NaN guard, and per-shareholder
  shares;
* the `calculated` VAT split/compose helpers of `ExpensesView` and `InvoicesView`.

Money is modelled by `ℚ`: every numeric literal appearing in the source
(0.28, 0.0756, 0.21, 0.09, 365.25, …) is an exactly representable decimal, so
the rational model reproduces the source arithmetic exactly wherever the source
arithmetic is exact.  For the one claim that is genuinely about IEEE special
values (the NaN guard of the company valuation) we use `JsNum`, an extension of
`ℚ` with `NaN` and signed infinities following JavaScript number semantics.

Dates are ISO `YYYY-MM-DD` strings compared with the JavaScript operator `<=`, i.e.
lexicographic comparison of code units; `jsLe` is the executable embedding of
that comparison.
-/

/-! ## Domain records (src/types.ts) -/

/-- Enum `InvoiceType` from src/types.ts (SALES / PURCHASE). -/
inductive InvoiceType where
  | SALES
  | PURCHASE
deriving DecidableEq, Repr

/-- Enum `PaymentStatus` from src/types.ts. -/
inductive PaymentStatus where
  | DRAFT
  | SENT
  | PARTIAL
  | PAID
  | OVERDUE
deriving DecidableEq, Repr

/-- Record `InvoiceLine` from src/types.ts: `amount` is net (ex-VAT), `vatRate` is a
percentage number (runtime values 0 / 9 / 21). -/
structure InvoiceLine where
  id : String
  description : String
  amount : ℚ
  vatRate : ℚ
deriving DecidableEq, Repr

/-- Record `Invoice` from src/types.ts, restricted to the fields the computation engine
reads (`number`, `companyId`, `dueDate`, `shareholderSplit`, attachment fields
are never consulted by any computation). -/
structure Invoice where
  type : InvoiceType
  date : String
  status : PaymentStatus
  lines : List InvoiceLine
deriving DecidableEq, Repr

/-- Record `Expense` from src/types.ts, restricted to the fields the engine reads. -/
structure Expense where
  date : String
  description : String
  amountExcl : ℚ
  vatAmount : ℚ
deriving DecidableEq, Repr

/-- Record `Investment` from src/types.ts, restricted to the fields the engine reads. -/
structure Investment where
  date : String
  purchaseValue : ℚ
  residualValue : ℚ
  lifespanYears : ℚ
deriving DecidableEq, Repr

/-- Record `FinancialSummary` from src/types.ts. -/
structure FinancialSummary where
  revenue : ℚ
  expenses : ℚ
  investments : ℚ
  profit : ℚ
  vatPayable : ℚ
  vatDeductible : ℚ
  vatTotal : ℚ
  kiaDeduction : ℚ
  manualCorrection : ℚ
deriving DecidableEq, Repr

/-- Record `VatReport` from src/types.ts. -/
structure VatReport where
  period : String
  year : Nat
  turnoverHigh : ℚ
  vatHigh : ℚ
  turnoverLow : ℚ
  vatLow : ℚ
  vatDeductible : ℚ
  totalPayable : ℚ
deriving DecidableEq, Repr

/-! ## Constants (src/constants.ts) -/

def KIA_THRESHOLD_MIN : ℚ := 2801

def KIA_MIN_ITEM_VALUE : ℚ := 450

def KIA_BRACKET_1_MAX : ℚ := 69765

def KIA_BRACKET_2_MAX : ℚ := 129194

def KIA_BRACKET_3_MAX : ℚ := 387580

def KIA_PCT_LOW : ℚ := 0.28

def KIA_FIXED_MID : ℚ := 19535

def KIA_REDUCTION_PCT : ℚ := 0.0756

/-- One entry of the `QUARTERS` table in src/constants.ts. -/
structure QuarterDef where
  id : Nat
  name : String
  range : String × String
  deadline : String
deriving DecidableEq, Repr

/-- The `QUARTERS` table from src/constants.ts. -/
def QUARTERS : List QuarterDef :=
  [ ⟨1, "Kwartaal 1", ("01", "03"), "30 april"⟩,
    ⟨2, "Kwartaal 2", ("04", "06"), "31 juli"⟩,
    ⟨3, "Kwartaal 3", ("07", "09"), "31 oktober"⟩,
    ⟨4, "Kwartaal 4", ("10", "12"), "31 januari"⟩ ]

/-! ## JavaScript string comparison

The source compares ISO date strings with JavaScript `<=` / `>=`, which is
lexicographic comparison of UTF-16 code units; for the fixed-width ASCII date
format this is lexicographic comparison of characters.  `jsLe a b` embeds the
JavaScript expression `a <= b`. -/

/-- Lexicographic `≤` on character lists (executable). -/
def charListLe : List Char → List Char → Bool
  | [], _ => true
  | _ :: _, [] => false
  | a :: as, b :: bs =>
    if a < b then true
    else if b < a then false
    else charListLe as bs

/-- JavaScript `a <= b` on strings. -/
def jsLe (a b : String) : Bool :=
  charListLe a.data b.data

/-! ## KIA calculator (`calculateKiaDeduction`, src/App.tsx lines 18–27) -/

def calculateKiaDeduction (totalInvestments : ℚ) : ℚ :=
  if totalInvestments < KIA_THRESHOLD_MIN then 0
  else if totalInvestments ≤ KIA_BRACKET_1_MAX then totalInvestments * KIA_PCT_LOW
  else if totalInvestments ≤ KIA_BRACKET_2_MAX then KIA_FIXED_MID
  else if totalInvestments ≤ KIA_BRACKET_3_MAX then
    KIA_FIXED_MID - ((totalInvestments - KIA_BRACKET_2_MAX) * KIA_REDUCTION_PCT)
  else 0

/-- The four-bracket piecewise function exactly as the specification words it
(spec §4.3 / claim text), with the literal constants written out.  Used to state
the refinement claim against `calculateKiaDeduction`. -/
def kiaSpecFunction (t : ℚ) : ℚ :=
  if t < 2801 then 0
  else if t ≤ 69765 then t * 0.28
  else if t ≤ 129194 then 19535
  else if t ≤ 387580 then 19535 - (t - 129194) * 0.0756
  else 0

/-! ## Depreciation calculator (`calculateBookValue`, src/App.tsx lines 29–42)

The source computes `ageInMs = now.getTime() - purchaseDate.getTime()` from two
clock/date reads; the difference `ageInMs` (milliseconds, possibly negative) is
the one external input of the pure computation and is passed explicitly. -/

/-- Milliseconds per 365.25-day year: `1000 * 60 * 60 * 24 * 365.25`. -/
def msPerYear : ℚ := 1000 * 60 * 60 * 24 * 365.25

def calculateBookValue (inv : Investment) (ageInMs : ℚ) : ℚ :=
  let ageInYears := ageInMs / msPerYear
  if inv.lifespanYears ≤ ageInYears then inv.residualValue
  else
    let totalDepreciation := inv.purchaseValue - inv.residualValue
    let annualDepreciation := totalDepreciation / inv.lifespanYears
    let currentDepreciation := annualDepreciation * ageInYears
    max inv.residualValue (inv.purchaseValue - currentDepreciation)

/-! ## VAT return aggregator (`VatReturnView` `calculate`, src/App.tsx 467–497) -/

/-- The four mutable accumulators `tHigh, vHigh, tLow, vLow` of `calculate`. -/
structure VatTotals where
  tHigh : ℚ
  vHigh : ℚ
  tLow : ℚ
  vLow : ℚ
deriving DecidableEq, Repr

/-- One step of the inner `forEach` over invoice lines: two independent `if`
statements on `line.vatRate` (src/App.tsx lines 481–484). -/
def applyLine (a : VatTotals) (line : InvoiceLine) : VatTotals :=
  let a1 :=
    if line.vatRate = 21 then
      { a with tHigh := a.tHigh + line.amount, vHigh := a.vHigh + line.amount * 0.21 }
    else a
  if line.vatRate = 9 then
    { a1 with tLow := a1.tLow + line.amount, vLow := a1.vLow + line.amount * 0.09 }
  else a1

/-- The outer `forEach` over the lines of one invoice. -/
def applyInvoice (a : VatTotals) (inv : Invoice) : VatTotals :=
  inv.lines.foldl applyLine a

/-- The invoice filter of `calculate`:
`i.type === InvoiceType.SALES && i.date >= start && i.date <= end`. -/
def vatFilterInvoices (invoices : List Invoice) (startDate endDate : String) :
    List Invoice :=
  invoices.filter fun i =>
    decide (i.type = InvoiceType.SALES) && jsLe startDate i.date && jsLe i.date endDate

/-- The quarter date window of `calculate`:
`start = `${year}-${qData.range[0]}-01``, `end = `${year}-${qData.range[1]}-31``,
with `qData = QUARTERS.find(q => q.id === quarter)`. -/
def vatWindow (year quarter : Nat) : Option (String × String) :=
  (QUARTERS.find? fun q => q.id == quarter).map fun qData =>
    (toString year ++ "-" ++ qData.range.1 ++ "-01",
     toString year ++ "-" ++ qData.range.2 ++ "-31")

/-- The VAT-return computation of `VatReturnView` (src/App.tsx lines 467–490);
returns `none` when the quarter id is not found, mirroring the early `return`. -/
def vatReturnCalculate (invoices : List Invoice) (expenses : List Expense)
    (year quarter : Nat) : Option VatReport :=
  match vatWindow year quarter with
  | none => none
  | some (startDate, endDate) =>
    let t := (vatFilterInvoices invoices startDate endDate).foldl applyInvoice ⟨0, 0, 0, 0⟩
    let vDeduct :=
      (expenses.filter fun e => jsLe startDate e.date && jsLe e.date endDate).foldl
        (fun s e => s + e.vatAmount) 0
    some { period := "Q" ++ toString quarter, year := year,
           turnoverHigh := t.tHigh, vatHigh := t.vHigh,
           turnoverLow := t.tLow, vatLow := t.vLow,
           vatDeductible := vDeduct,
           totalPayable := (t.vHigh + t.vLow) - vDeduct }

/-! ## Financial summary aggregator (`loadSummary`, src/App.tsx lines 755–774) -/

def loadSummary (inv : List Invoice) (exp : List Expense) (invest : List Investment)
    (correction : ℚ) : FinancialSummary :=
  let sales := inv.filter fun i =>
    decide (i.type = InvoiceType.SALES) && decide (i.status ≠ PaymentStatus.DRAFT)
  let revenue := sales.foldl (fun acc i => acc + i.lines.foldl (fun s l => s + l.amount) 0) 0
  let expensesTotal := exp.foldl (fun acc e => acc + e.amountExcl) 0
  let investmentTotal := invest.foldl (fun acc i => acc + i.purchaseValue) 0
  let kia := calculateKiaDeduction
    ((invest.filter fun i => decide (KIA_MIN_ITEM_VALUE ≤ i.purchaseValue)).foldl
      (fun a b => a + b.purchaseValue) 0)
  let vatOut := sales.foldl
    (fun acc i => acc + i.lines.foldl (fun s l => s + l.amount * l.vatRate / 100) 0) 0
  let vatIn := exp.foldl (fun acc e => acc + e.vatAmount) 0
  { revenue := revenue, expenses := expensesTotal, investments := investmentTotal,
    profit := revenue - expensesTotal,
    vatPayable := vatOut, vatDeductible := vatIn, vatTotal := vatOut - vatIn,
    kiaDeduction := kia, manualCorrection := correction }

/-! ## VAT split/compose helpers (`calculated` in `ExpensesView` and `InvoicesView`) -/

/-- Result record `{excl, vat, total}` of the `calculated` helpers. -/
structure VatCalc where
  excl : ℚ
  vat : ℚ
  total : ℚ
deriving DecidableEq, Repr

/-- Helper `calculated` of `ExpensesView` (src/App.tsx lines 319–328). -/
def expensesCalculated (amountInput : ℚ) (vatIncluded : Bool) (vatRate : ℚ) : VatCalc :=
  let amt := amountInput
  let rate := vatRate / 100
  if vatIncluded then
    let excl := amt / (1 + rate)
    { excl := excl, vat := amt - excl, total := amt }
  else
    { excl := amt, vat := amt * rate, total := amt * (1 + rate) }

/-- Helper `calculated` of `InvoicesView` (src/App.tsx lines 557–563). -/
def invoicesCalculated (totalInput : ℚ) (vatIncluded : Bool) (vatRate : ℚ) : VatCalc :=
  let amt := totalInput
  let rate := vatRate / 100
  let excl := if vatIncluded then amt / (1 + rate) else amt
  let vat := if vatIncluded then amt - excl else amt * rate
  { excl := excl, vat := vat, total := if vatIncluded then amt else amt + vat }

/-! ## JavaScript numbers and the company valuation (`CompanyInfoView`, src/App.tsx 700–721)

`JsNum` extends `ℚ` with `NaN` and the two signed infinities, with the
propagation rules of IEEE-754 / JavaScript arithmetic (finite arithmetic is
modelled exactly, without rounding, which is faithful for the special-value
propagation these claims are about). -/

inductive JsNum where
  | num (q : ℚ)
  | inf (pos : Bool)
  | nan
deriving DecidableEq, Repr

def JsNum.neg : JsNum → JsNum
  | num q => num (-q)
  | inf p => inf (!p)
  | nan => nan

def JsNum.add : JsNum → JsNum → JsNum
  | nan, _ => nan
  | _, nan => nan
  | inf p, inf q => if p = q then inf p else nan
  | inf p, num _ => inf p
  | num _, inf p => inf p
  | num a, num b => num (a + b)

def JsNum.sub (a b : JsNum) : JsNum := a.add b.neg

def JsNum.mul : JsNum → JsNum → JsNum
  | nan, _ => nan
  | _, nan => nan
  | inf p, inf q => inf (p == q)
  | inf p, num b => if b = 0 then nan else inf (p == decide (0 < b))
  | num a, inf p => if a = 0 then nan else inf (p == decide (0 < a))
  | num a, num b => num (a * b)

/-- JavaScript `isNaN` (on numbers). -/
def JsNum.isNaN : JsNum → Bool
  | nan => true
  | _ => false

/-- JavaScript `Number.isFinite`. -/
def JsNum.isFinite : JsNum → Bool
  | num _ => true
  | _ => false

/-- src/App.tsx line 700:
`companyValue = summary.profit + summary.investments - summary.vatTotal + correction`
(JavaScript `+`/`-` associate left-to-right). -/
def companyValue (profit investments vatTotal correction : JsNum) : JsNum :=
  ((profit.add investments).sub vatTotal).add correction

/-- src/App.tsx line 701: `safeCompanyValue = isNaN(companyValue) ? 0 : companyValue`. -/
def safeCompanyValue (cv : JsNum) : JsNum :=
  if cv.isNaN then JsNum.num 0 else cv

/-- src/App.tsx line 721: `shareValue = safeCompanyValue * (sh.defaultPercentage / 100)`. -/
def shareValue (cv : JsNum) (defaultPercentage : ℚ) : JsNum :=
  (safeCompanyValue cv).mul (JsNum.num (defaultPercentage / 100))

/-! ## Specification-side definitions for the quarter window (spec §6 / claim C8) -/

/-- The month pairs of the quarter table exactly as the specification lists them:
Q1→(01,03), Q2→(04,06), Q3→(07,09), Q4→(10,12). -/
def specQuarterMonths : Nat → Option (String × String)
  | 1 => some ("01", "03")
  | 2 => some ("04", "06")
  | 3 => some ("07", "09")
  | 4 => some ("10", "12")
  | _ => none

/-- The window strings exactly as the specification words them:
`{year}-{mm_start}-01` through `{year}-{mm_end}-31` (literal day "31" for every
quarter). -/
def specWindow (year quarter : Nat) : Option (String × String) :=
  (specQuarterMonths quarter).map fun p =>
    (toString year ++ "-" ++ p.1 ++ "-01", toString year ++ "-" ++ p.2 ++ "-31")

/-! ## Per-line / per-invoice contribution functions (used to state aggregation facts) -/

/-- Contribution of one invoice line to `tHigh`. -/
def hiT (l : InvoiceLine) : ℚ := if l.vatRate = 21 then l.amount else 0

/-- Contribution of one invoice line to `vHigh`. -/
def hiV (l : InvoiceLine) : ℚ := if l.vatRate = 21 then l.amount * 0.21 else 0

/-- Contribution of one invoice line to `tLow`. -/
def loT (l : InvoiceLine) : ℚ := if l.vatRate = 9 then l.amount else 0

/-- Contribution of one invoice line to `vLow`. -/
def loV (l : InvoiceLine) : ℚ := if l.vatRate = 9 then l.amount * 0.09 else 0

/-! ## Concrete fixture data (used by the VAT-return scenario claim) -/

/-- Fixture: in-window SALES invoice with a single 21%-rate line of net 100. -/
def fixtureInvoiceHigh : Invoice :=
  { type := InvoiceType.SALES, date := "2024-02-15", status := PaymentStatus.SENT,
    lines := [⟨"l1", "Levering hoog tarief", 100, 21⟩] }

/-- Fixture: in-window SALES invoice with a single 9%-rate line of net 200. -/
def fixtureInvoiceLow : Invoice :=
  { type := InvoiceType.SALES, date := "2024-03-01", status := PaymentStatus.SENT,
    lines := [⟨"l2", "Levering laag tarief", 200, 9⟩] }

/-- Fixture: in-window expense with `vatAmount = 10`. -/
def fixtureExpense : Expense :=
  { date := "2024-02-20", description := "Kantoorkosten", amountExcl := 50, vatAmount := 10 }

/-- Fixture investment of the depreciation claim:
`purchaseValue = 1000`, `residualValue = 100`, `lifespanYears = 5`. -/
def demoInvestment : Investment :=
  { date := "2020-01-01", purchaseValue := 1000, residualValue := 100, lifespanYears := 5 }

/-- Fixture: in-window SALES invoice with status DRAFT (one 21%-rate line of
net 100), for the DRAFT-asymmetry claim. -/
def fixtureDraftInvoice : Invoice :=
  { type := InvoiceType.SALES, date := "2024-02-15", status := PaymentStatus.DRAFT,
    lines := [⟨"l3", "Concept levering", 100, 21⟩] }

/-- Invoice `i` with an extra zero-rated line of net amount `a` prepended to its lines
(the invoice is otherwise unchanged). -/
def withZeroLine (idStr descStr : String) (a : ℚ) (i : Invoice) : Invoice :=
  { i with lines := ⟨idStr, descStr, a, 0⟩ :: i.lines }

/-! # Theorems -/

/-- C1: The KIA deduction is the four-bracket piecewise function of the
qualifying total `t` with inclusive upper bounds checked in ascending order:
if `t < 2801` the result is 0; else if `t ≤ 69765` it is `t * 0.28`; else if
`t ≤ 129194` it is 19535; else if `t ≤ 387580` it is
`19535 - (t - 129194) * 0.0756`; else it is 0. -/
theorem kia_deduction_matches_spec_brackets (t : ℚ) :
    calculateKiaDeduction t = kiaSpecFunction t := rfl

/-- C9: The KIA deduction is never negative, for every input (negative, zero,
boundary, or arbitrarily large); in particular the descending third bracket
stays non-negative up to its inclusive upper bound. -/
theorem kia_deduction_nonneg (t : ℚ) : 0 ≤ calculateKiaDeduction t := by
  unfold calculateKiaDeduction KIA_THRESHOLD_MIN KIA_BRACKET_1_MAX KIA_BRACKET_2_MAX
    KIA_BRACKET_3_MAX KIA_PCT_LOW KIA_FIXED_MID KIA_REDUCTION_PCT
  split_ifs with h1 h2 h3 h4
  · exact le_refl 0
  · nlinarith
  · norm_num
  · nlinarith
  · exact le_refl 0

/-- C3 counterexample: the claim asserts
`kia(387580) ≈ 19535 - (387580 - 129194) * 0.0756 ≈ 0.02`, but the exact value
of that expression is `1.0184`, which is not within any reasonable tolerance
(here 0.1) of `0.02`. -/
theorem kia_at_387580_is_not_near_002 :
    calculateKiaDeduction 387580 = 1.0184 ∧
    ¬ |calculateKiaDeduction 387580 - 0.02| ≤ 0.1 := by
  constructor
  · norm_num [calculateKiaDeduction, KIA_THRESHOLD_MIN, KIA_BRACKET_1_MAX,
      KIA_BRACKET_2_MAX, KIA_BRACKET_3_MAX, KIA_PCT_LOW, KIA_FIXED_MID, KIA_REDUCTION_PCT]
  · norm_num [calculateKiaDeduction, KIA_THRESHOLD_MIN, KIA_BRACKET_1_MAX,
      KIA_BRACKET_2_MAX, KIA_BRACKET_3_MAX, KIA_PCT_LOW, KIA_FIXED_MID, KIA_REDUCTION_PCT,
      abs_le]

/-- C3 (amended): the KIA boundary values, with the value at the inclusive top
of the third bracket corrected to its exact value
`19535 - (387580 - 129194) * 0.0756 = 1.0184` (≈ 1.02, not ≈ 0.02):
`kia(2800) = 0`, `kia(2801) = 784.28`, `kia(69765) = 19534.2`,
`kia(69766) = 19535` (the jump at the bracket-1→mid boundary),
`kia(129194) = 19535`, `kia(129195) = 19535 - 0.0756 = 19534.9244`,
`kia(387580) = 1.0184`, `kia(387581) = 0`. -/
theorem kia_boundary_values :
    calculateKiaDeduction 2800 = 0 ∧
    calculateKiaDeduction 2801 = 2801 * 0.28 ∧
    calculateKiaDeduction 2801 = 784.28 ∧
    calculateKiaDeduction 69765 = 69765 * 0.28 ∧
    calculateKiaDeduction 69765 = 19534.2 ∧
    calculateKiaDeduction 69766 = 19535 ∧
    calculateKiaDeduction 129194 = 19535 ∧
    calculateKiaDeduction 129195 = 19535 - 0.0756 ∧
    calculateKiaDeduction 387580 = 19535 - (387580 - 129194) * 0.0756 ∧
    calculateKiaDeduction 387580 = 1.0184 ∧
    calculateKiaDeduction 387581 = 0 := by
  refine ⟨?_, ?_, ?_, ?_, ?_, ?_, ?_, ?_, ?_, ?_, ?_⟩ <;>
    norm_num [calculateKiaDeduction, KIA_THRESHOLD_MIN, KIA_BRACKET_1_MAX,
      KIA_BRACKET_2_MAX, KIA_BRACKET_3_MAX, KIA_PCT_LOW, KIA_FIXED_MID, KIA_REDUCTION_PCT]

/-- C5: For every investment with positive lifespan and every reference
instant (given through the elapsed milliseconds; the age in fractional
365.25-day years is `ageInMs / msPerYear`): the book value equals
`residualValue` when the age reaches `lifespanYears`, otherwise it equals
`max residualValue (purchaseValue - (purchaseValue - residualValue) / lifespanYears * age)`;
hence it is never below `residualValue`, even for negative age.  In addition,
for `purchaseValue = 1000`, `residualValue = 100`, `lifespanYears = 5` the book
value is 550 at age 2.5 years and exactly 100 at ages 5 and 10 years. -/
theorem bookValue_floors_at_residual :
    (∀ (inv : Investment) (ageInMs : ℚ), 0 < inv.lifespanYears →
      (inv.lifespanYears ≤ ageInMs / msPerYear →
        calculateBookValue inv ageInMs = inv.residualValue) ∧
      (ageInMs / msPerYear < inv.lifespanYears →
        calculateBookValue inv ageInMs =
          max inv.residualValue
            (inv.purchaseValue -
              (inv.purchaseValue - inv.residualValue) / inv.lifespanYears *
                (ageInMs / msPerYear))) ∧
      inv.residualValue ≤ calculateBookValue inv ageInMs) ∧
    calculateBookValue demoInvestment (2.5 * msPerYear) = 550 ∧
    calculateBookValue demoInvestment (5 * msPerYear) = 100 ∧
    calculateBookValue demoInvestment (10 * msPerYear) = 100 := by
  refine ⟨fun inv ageInMs _ => ?_, ?_, ?_, ?_⟩
  · unfold calculateBookValue
    by_cases h : inv.lifespanYears ≤ ageInMs / msPerYear
    · exact ⟨fun _ => by simp [h], fun hlt => absurd h (not_le.mpr hlt), by simp [h]⟩
    · refine ⟨fun hle => absurd hle h, fun _ => by simp [h], by simp [h, le_max_left]⟩
  · norm_num [calculateBookValue, demoInvestment, msPerYear, max_def]
  · norm_num [calculateBookValue, demoInvestment, msPerYear, max_def]
  · norm_num [calculateBookValue, demoInvestment, msPerYear, max_def]

/-- C5 witness: the general part applied to the fixture investment at a
negative age (−1 year): the book value still does not drop below the residual
value. -/
theorem bookValue_floors_at_residual_witness :
    demoInvestment.residualValue ≤ calculateBookValue demoInvestment (-msPerYear) :=
  (bookValue_floors_at_residual.1 demoInvestment (-msPerYear)
    (by norm_num [demoInvestment])).2.2

/-- C7: VAT split/compose round-trip: for every net amount `n` and rate
`r ∈ {0, 9, 21}`, composing with VAT excluded (`gross = n * (1 + r/100)`) and
then splitting that gross with VAT included returns a net equal to `n`
(exactly, in the rational model — hence within floating-point epsilon); and in
each direction the computed triple satisfies `net + vat = gross` and
`vat = net * r / 100`.  Stated for both the `ExpensesView` and the
`InvoicesView` `calculated` helper. -/
theorem vat_split_compose_roundtrip (n r : ℚ) (hr : r = 0 ∨ r = 9 ∨ r = 21) :
    (invoicesCalculated (expensesCalculated n false r).total true r).excl = n ∧
    (expensesCalculated (invoicesCalculated n false r).total true r).excl = n ∧
    (∀ inc : Bool,
      (expensesCalculated n inc r).excl + (expensesCalculated n inc r).vat =
        (expensesCalculated n inc r).total ∧
      (expensesCalculated n inc r).vat = (expensesCalculated n inc r).excl * r / 100 ∧
      (invoicesCalculated n inc r).excl + (invoicesCalculated n inc r).vat =
        (invoicesCalculated n inc r).total ∧
      (invoicesCalculated n inc r).vat = (invoicesCalculated n inc r).excl * r / 100) := by
  rcases hr with h | h | h <;> subst h <;>
    refine ⟨by norm_num [expensesCalculated, invoicesCalculated] <;> ring,
            by norm_num [expensesCalculated, invoicesCalculated] <;> ring,
            fun inc => ?_⟩ <;>
    cases inc <;>
    refine ⟨?_, ?_, ?_, ?_⟩ <;>
    norm_num [expensesCalculated, invoicesCalculated] <;>
    ring

/-- C7 witness: the round-trip and triple identities at `n = 200`, `r = 21`. -/
theorem vat_split_compose_roundtrip_witness :
    (invoicesCalculated (expensesCalculated 200 false 21).total true 21).excl = 200 :=
  (vat_split_compose_roundtrip 200 21 (Or.inr (Or.inr rfl))).1

/-- C2 counterexample: with `profit = Infinity` (and all other summands 0) the
sum `companyValue` is not a finite number, yet the guard on src/App.tsx line 701
tests only `isNaN`, so the displayed/used value is `Infinity`, not 0 — the
claim "whenever this sum is not a finite number the value that is displayed and
used is 0" is false. -/
theorem company_value_infinity_not_clamped :
    (companyValue (JsNum.inf true) (JsNum.num 0) (JsNum.num 0) (JsNum.num 0)).isFinite
        = false ∧
    safeCompanyValue (companyValue (JsNum.inf true) (JsNum.num 0) (JsNum.num 0)
        (JsNum.num 0)) = JsNum.inf true ∧
    safeCompanyValue (companyValue (JsNum.inf true) (JsNum.num 0) (JsNum.num 0)
        (JsNum.num 0)) ≠ JsNum.num 0 := by
  refine ⟨rfl, rfl, ?_⟩
  simp [companyValue, safeCompanyValue, JsNum.add, JsNum.sub, JsNum.neg, JsNum.isNaN]

/-- C2 (amended): `companyValue = profit + investmentsTotal - vatTotal +
manualCorrection`, and the guard replaces exactly a NaN sum by 0 (in which case
every per-shareholder share is 0 as well); every non-NaN sum — finite or
infinite — is used unchanged, and for a finite sum `q` each share is
`q * defaultPercentage / 100`. -/
theorem company_value_nan_guard (profit investments vatTotal correction : JsNum) :
    ((companyValue profit investments vatTotal correction).isNaN = true →
      safeCompanyValue (companyValue profit investments vatTotal correction) = JsNum.num 0 ∧
      ∀ pct : ℚ, shareValue (companyValue profit investments vatTotal correction) pct =
        JsNum.num 0) ∧
    ((companyValue profit investments vatTotal correction).isNaN = false →
      safeCompanyValue (companyValue profit investments vatTotal correction) =
        companyValue profit investments vatTotal correction) ∧
    (∀ q : ℚ, companyValue profit investments vatTotal correction = JsNum.num q →
      ∀ pct : ℚ, shareValue (companyValue profit investments vatTotal correction) pct =
        JsNum.num (q * (pct / 100))) := by
  refine ⟨fun h => ?_, fun h => ?_, fun q hq pct => ?_⟩
  · cases hcv : companyValue profit investments vatTotal correction <;>
      rw [hcv] at h <;> simp [JsNum.isNaN] at h <;>
      simp [safeCompanyValue, shareValue, JsNum.isNaN, JsNum.mul]
  · simp [safeCompanyValue, h]
  · rw [hq]
    simp [shareValue, safeCompanyValue, JsNum.isNaN, JsNum.mul]

/-- C2 witness: the amended theorem applied at a NaN `profit` (all other inputs
0): the company value is NaN and the guard yields 0. -/
theorem company_value_nan_guard_witness :
    safeCompanyValue (companyValue JsNum.nan (JsNum.num 0) (JsNum.num 0) (JsNum.num 0)) =
      JsNum.num 0 :=
  ((company_value_nan_guard JsNum.nan (JsNum.num 0) (JsNum.num 0) (JsNum.num 0)).1 rfl).1

/-! ## Helper lemmas: closed forms of the accumulating folds -/

/-- A left fold that only adds `f x` at each step is the starting value plus the
sum of `f` over the list. -/
theorem foldl_add_eq {α : Type} (f : α → ℚ) :
    ∀ (xs : List α) (a : ℚ), List.foldl (fun s x => s + f x) a xs = a + (xs.map f).sum
  | [], a => by simp
  | x :: xs, a => by
    rw [List.foldl_cons, foldl_add_eq f xs, List.map_cons, List.sum_cons]
    ring

/-- One `applyLine` step adds the four per-line contributions componentwise. -/
theorem applyLine_eq (a : VatTotals) (l : InvoiceLine) :
    applyLine a l = ⟨a.tHigh + hiT l, a.vHigh + hiV l, a.tLow + loT l, a.vLow + loV l⟩ := by
  unfold applyLine hiT hiV loT loV
  by_cases h21 : l.vatRate = 21 <;> by_cases h9 : l.vatRate = 9
  · exfalso; rw [h21] at h9; norm_num at h9
  all_goals simp [h21, h9]

/-- Closed form of the fold of `applyLine` over a line list. -/
theorem foldl_applyLine_eq :
    ∀ (lines : List InvoiceLine) (a : VatTotals),
      lines.foldl applyLine a =
        ⟨a.tHigh + (lines.map hiT).sum, a.vHigh + (lines.map hiV).sum,
         a.tLow + (lines.map loT).sum, a.vLow + (lines.map loV).sum⟩
  | [], a => by simp
  | l :: ls, a => by
    rw [List.foldl_cons, applyLine_eq, foldl_applyLine_eq ls]
    simp only [List.map_cons, List.sum_cons, VatTotals.mk.injEq]
    refine ⟨by ring, by ring, by ring, by ring⟩

/-- Closed form of the fold of `applyInvoice` over an invoice list. -/
theorem foldl_applyInvoice_eq :
    ∀ (invs : List Invoice) (a : VatTotals),
      invs.foldl applyInvoice a =
        ⟨a.tHigh + (invs.map fun i => (i.lines.map hiT).sum).sum,
         a.vHigh + (invs.map fun i => (i.lines.map hiV).sum).sum,
         a.tLow + (invs.map fun i => (i.lines.map loT).sum).sum,
         a.vLow + (invs.map fun i => (i.lines.map loV).sum).sum⟩
  | [], a => by simp
  | i :: is, a => by
    rw [List.foldl_cons]
    show is.foldl applyInvoice (applyInvoice a i) = _
    rw [foldl_applyInvoice_eq is, applyInvoice, foldl_applyLine_eq]
    simp only [List.map_cons, List.sum_cons, VatTotals.mk.injEq]
    refine ⟨by ring, by ring, by ring, by ring⟩

/-- C6: For the fixed scenario of two in-window SALES invoices with one line
each (net 100 at rate 21 and net 200 at rate 9) and one in-window expense with
`vatAmount = 10`, the VAT return for 2024 Q1 is `turnoverHigh = 100`,
`vatHigh = 21`, `turnoverLow = 200`, `vatLow = 18`, `vatDeductible = 10`,
`totalPayable = (vatHigh + vatLow) - vatDeductible = 29`; an invoice line at
rate 0 contributes to no accumulator; and empty input sets yield an all-zero
report. -/
theorem vat_return_fixed_scenario :
    vatReturnCalculate [fixtureInvoiceHigh, fixtureInvoiceLow] [fixtureExpense] 2024 1 =
      some { period := "Q1", year := 2024, turnoverHigh := 100, vatHigh := 21,
             turnoverLow := 200, vatLow := 18, vatDeductible := 10, totalPayable := 29 } ∧
    (∀ (a : VatTotals) (idStr descStr : String) (amt : ℚ),
      applyLine a ⟨idStr, descStr, amt, 0⟩ = a) ∧
    vatReturnCalculate [] [] 2024 1 =
      some { period := "Q1", year := 2024, turnoverHigh := 0, vatHigh := 0,
             turnoverLow := 0, vatLow := 0, vatDeductible := 0, totalPayable := 0 } := by
  have hw : vatWindow 2024 1 = some ("2024-01-01", "2024-03-31") := rfl
  have hq : "Q" ++ toString (1 : Nat) = "Q1" := rfl
  have h1 : jsLe "2024-01-01" "2024-02-15" = true := by decide
  have h2 : jsLe "2024-02-15" "2024-03-31" = true := by decide
  have h3 : jsLe "2024-01-01" "2024-03-01" = true := by decide
  have h4 : jsLe "2024-03-01" "2024-03-31" = true := by decide
  have h5 : jsLe "2024-01-01" "2024-02-20" = true := by decide
  have h6 : jsLe "2024-02-20" "2024-03-31" = true := by decide
  refine ⟨?_, ?_, ?_⟩
  · simp only [vatReturnCalculate, hw, hq, vatFilterInvoices, List.filter,
      fixtureInvoiceHigh, fixtureInvoiceLow, fixtureExpense, h1, h2, h3, h4, h5, h6,
      decide_True, Bool.and_self, Bool.and_true, Bool.true_and, List.foldl,
      applyInvoice, applyLine]
    norm_num
  · intro a idStr descStr amt
    simp [applyLine]
  · simp only [vatReturnCalculate, hw, hq, vatFilterInvoices, List.filter, List.foldl]
    norm_num

/-- C4: A SALES invoice with status DRAFT contributes nothing to the Financial
Summary fields `revenue` and `vatPayable` (only SALES invoices with status ≠ DRAFT
are summed there), yet its lines DO contribute to the VAT Return Aggregator fields
`turnoverHigh`/`vatHigh`/`turnoverLow`/`vatLow` for a quarter window containing
its date: that aggregator filters only on type SALES and the date window,
applying no status filter. -/
theorem draft_sales_asymmetry
    (i : Invoice) (rest : List Invoice) (exps : List Expense)
    (invest : List Investment) (corr : ℚ) (year quarter : Nat) (s e : String)
    (htype : i.type = InvoiceType.SALES) (hstatus : i.status = PaymentStatus.DRAFT)
    (hw : vatWindow year quarter = some (s, e))
    (hs : jsLe s i.date = true) (he : jsLe i.date e = true) :
    (loadSummary (i :: rest) exps invest corr).revenue =
      (loadSummary rest exps invest corr).revenue ∧
    (loadSummary (i :: rest) exps invest corr).vatPayable =
      (loadSummary rest exps invest corr).vatPayable ∧
    ∃ r r' : VatReport,
      vatReturnCalculate rest exps year quarter = some r ∧
      vatReturnCalculate (i :: rest) exps year quarter = some r' ∧
      r'.turnoverHigh = r.turnoverHigh + (i.lines.map hiT).sum ∧
      r'.vatHigh = r.vatHigh + (i.lines.map hiV).sum ∧
      r'.turnoverLow = r.turnoverLow + (i.lines.map loT).sum ∧
      r'.vatLow = r.vatLow + (i.lines.map loV).sum := by
  have hfilter : vatFilterInvoices (i :: rest) s e = i :: vatFilterInvoices rest s e := by
    simp [vatFilterInvoices, List.filter_cons, htype, hs, he]
  refine ⟨?_, ?_, ?_⟩
  · simp [loadSummary, List.filter_cons, hstatus]
  · simp [loadSummary, List.filter_cons, hstatus]
  · simp only [vatReturnCalculate, hw, hfilter]
    refine ⟨_, _, rfl, rfl, ?_, ?_, ?_, ?_⟩ <;>
      simp only [foldl_applyInvoice_eq, List.map_cons, List.sum_cons] <;>
      ring

/-- C4 witness: the asymmetry theorem applied to the fixture DRAFT sales
invoice (alone, in the 2024 Q1 window): it adds nothing to revenue. -/
theorem draft_sales_asymmetry_witness :
    (loadSummary [fixtureDraftInvoice] [] [] 0).revenue =
      (loadSummary [] [] [] 0).revenue :=
  (draft_sales_asymmetry fixtureDraftInvoice [] [] [] 0 2024 1 "2024-01-01" "2024-03-31"
    rfl rfl rfl (by decide) (by decide)).1

/-- C10: In the Financial Summary, an invoice line with `vatRate = 0` on a
SALES, non-DRAFT invoice adds its full amount to `revenue` (and hence to
`profit`) while adding exactly 0 to `vatPayable` — revenue sums `line.amount`
unconditionally over the filtered sales whereas `vatPayable` sums
`line.amount * vatRate / 100`; and the line changes no field of any VatReport
(for every year and quarter the VAT return is unchanged by adding the line). -/
theorem zero_rated_line_summary_vs_vatreport
    (idStr descStr : String) (a : ℚ) (i : Invoice) (rest : List Invoice)
    (exps : List Expense) (invest : List Investment) (corr : ℚ)
    (htype : i.type = InvoiceType.SALES) (hstatus : i.status ≠ PaymentStatus.DRAFT) :
    (loadSummary (withZeroLine idStr descStr a i :: rest) exps invest corr).revenue =
      (loadSummary (i :: rest) exps invest corr).revenue + a ∧
    (loadSummary (withZeroLine idStr descStr a i :: rest) exps invest corr).profit =
      (loadSummary (i :: rest) exps invest corr).profit + a ∧
    (loadSummary (withZeroLine idStr descStr a i :: rest) exps invest corr).vatPayable =
      (loadSummary (i :: rest) exps invest corr).vatPayable ∧
    ∀ year quarter : Nat,
      vatReturnCalculate (withZeroLine idStr descStr a i :: rest) exps year quarter =
        vatReturnCalculate (i :: rest) exps year quarter := by
  have hstat : (decide (i.type = InvoiceType.SALES) &&
      decide (i.status ≠ PaymentStatus.DRAFT)) = true := by
    simp [htype, hstatus]
  refine ⟨?_, ?_, ?_, ?_⟩
  · simp only [loadSummary, List.filter_cons, withZeroLine, hstat, if_pos,
      List.foldl_cons, foldl_add_eq, List.map_cons, List.sum_cons]
    ring
  · simp only [loadSummary, List.filter_cons, withZeroLine, hstat, if_pos,
      List.foldl_cons, foldl_add_eq, List.map_cons, List.sum_cons]
    ring
  · simp only [loadSummary, List.filter_cons, withZeroLine, hstat, if_pos,
      List.foldl_cons, foldl_add_eq, List.map_cons, List.sum_cons]
    ring
  · intro year quarter
    cases hw : vatWindow year quarter with
    | none => simp [vatReturnCalculate, hw]
    | some p =>
      obtain ⟨s, e⟩ := p
      simp only [vatReturnCalculate, hw]
      have hsplit : ∀ (invs : List Invoice) (j : Invoice),
          vatFilterInvoices (j :: invs) s e =
            if decide (j.type = InvoiceType.SALES) && jsLe s j.date && jsLe j.date e
            then j :: vatFilterInvoices invs s e else vatFilterInvoices invs s e := by
        intro invs j
        simp [vatFilterInvoices, List.filter_cons]
      rw [hsplit, hsplit]
      have hcond : (decide ((withZeroLine idStr descStr a i).type = InvoiceType.SALES) &&
          jsLe s (withZeroLine idStr descStr a i).date &&
          jsLe (withZeroLine idStr descStr a i).date e) =
          (decide (i.type = InvoiceType.SALES) && jsLe s i.date && jsLe i.date e) := rfl
      rw [hcond]
      by_cases hc :
          (decide (i.type = InvoiceType.SALES) && jsLe s i.date && jsLe i.date e) = true
      · rw [if_pos hc, if_pos hc]
        simp only [Option.some.injEq, foldl_applyInvoice_eq, List.map_cons, List.sum_cons,
          withZeroLine, VatReport.mk.injEq, hiT, hiV, loT, loV]
        norm_num
      · rw [if_neg hc, if_neg hc]

/-- C10 witness: adding a zero-rated line of net 50 to the (SALES, SENT)
fixture invoice raises the summary revenue by exactly 50. -/
theorem zero_rated_line_summary_vs_vatreport_witness :
    (loadSummary [withZeroLine "z1" "Vrijgesteld" 50 fixtureInvoiceHigh] [] [] 0).revenue =
      (loadSummary [fixtureInvoiceHigh] [] [] 0).revenue + 50 :=
  (zero_rated_line_summary_vs_vatreport "z1" "Vrijgesteld" 50 fixtureInvoiceHigh [] [] [] 0
    rfl (by decide)).1

/-- Boolean `charListLe` decides the inclusive lexicographic order on character lists:
it is true exactly when the lists are equal or the first is lexicographically
smaller. -/
theorem charListLe_iff_lex :
    ∀ as bs : List Char, charListLe as bs = true ↔ (as = bs ∨ List.Lex (· < ·) as bs)
  | [], [] => by simp [charListLe]
  | [], b :: bs => iff_of_true rfl (Or.inr List.Lex.nil)
  | a :: as, [] => by
    apply iff_of_false
    · simp [charListLe]
    · rintro (h | h)
      · exact List.noConfusion h
      · cases h
  | a :: as, b :: bs => by
    rcases lt_trichotomy a b with hab | hab | hab
    · apply iff_of_true
      · simp [charListLe, hab]
      · exact Or.inr (List.Lex.rel hab)
    · subst hab
      have hstep : charListLe (a :: as) (a :: bs) = charListLe as bs := by
        simp [charListLe]
      rw [hstep, charListLe_iff_lex as bs]
      constructor
      · rintro (h | h)
        · exact Or.inl (by rw [h])
        · exact Or.inr (List.Lex.cons h)
      · rintro (h | h)
        · exact Or.inl (by injection h)
        · cases h with
          | cons h => exact Or.inr h
          | rel h => exact absurd h (lt_irrefl a)
    · apply iff_of_false
      · simp [charListLe, hab, not_lt_of_gt hab]
      · rintro (h | h)
        · injection h with h1 _
          exact absurd h1.symm (ne_of_lt hab)
        · cases h with
          | cons h2 => exact absurd rfl (ne_of_gt hab)
          | rel h2 => exact absurd h2 (not_lt_of_gt hab)

/-- C8: For every year and every quarter in {1,2,3,4}, the VAT Return
Aggregator date window equals the interval from `{year}-{mm_start}-01` to
`{year}-{mm_end}-31` with month pairs Q1→(01,03), Q2→(04,06), Q3→(07,09),
Q4→(10,12), and the end day is the literal "31" for every quarter (and the
table defines no other quarter); membership is decided by inclusive
lexicographic comparison of the ISO date strings: the aggregator keeps exactly
the SALES invoices whose date lies between the window bounds, where the `jsLe`
comparison used by the filter is the inclusive lexicographic order. -/
theorem vat_quarter_window_spec :
    (∀ year quarter : Nat, vatWindow year quarter = specWindow year quarter) ∧
    (∀ a b : String, jsLe a b = true ↔ (a = b ∨ List.Lex (· < ·) a.data b.data)) ∧
    (∀ (invoices : List Invoice) (i : Invoice) (s e : String),
      i ∈ vatFilterInvoices invoices s e ↔
        i ∈ invoices ∧ i.type = InvoiceType.SALES ∧
        (s = i.date ∨ List.Lex (· < ·) s.data i.date.data) ∧
        (i.date = e ∨ List.Lex (· < ·) i.date.data e.data)) := by
  have hjs : ∀ a b : String, jsLe a b = true ↔ (a = b ∨ List.Lex (· < ·) a.data b.data) := by
    intro a b
    rw [jsLe, charListLe_iff_lex]
    constructor
    · rintro (h | h)
      · exact Or.inl (String.ext h)
      · exact Or.inr h
    · rintro (h | h)
      · exact Or.inl (by rw [h])
      · exact Or.inr h
  refine ⟨?_, hjs, ?_⟩
  · intro year quarter
    rcases quarter with _ | _ | _ | _ | _ | n <;> rfl
  · intro invoices i s e
    rw [vatFilterInvoices, List.mem_filter]
    constructor
    · rintro ⟨hmem, hcond⟩
      simp only [Bool.and_eq_true, decide_eq_true_eq] at hcond
      obtain ⟨⟨ht, hsle⟩, hele⟩ := hcond
      exact ⟨hmem, ht, (hjs s i.date).mp hsle, (hjs i.date e).mp hele⟩
    · rintro ⟨hmem, ht, hsle, hele⟩
      refine ⟨hmem, ?_⟩
      simp only [Bool.and_eq_true, decide_eq_true_eq]
      exact ⟨⟨ht, (hjs s i.date).mpr hsle⟩, (hjs i.date e).mpr hele⟩

/-- C8 witness: the window equality evaluated at year 2024, quarter 2 — the
window is `("2024-04-01", "2024-06-31")`, with the literal end day "31" even
though June has 30 days. -/
theorem vat_quarter_window_spec_witness :
    vatWindow 2024 2 = specWindow 2024 2 ∧
    specWindow 2024 2 = some ("2024-04-01", "2024-06-31") :=
  ⟨vat_quarter_window_spec.1 2024 2, rfl⟩
